import Mathlib

/-!
Shallow embedding of the swpt_creditors reconciliation and coordination
engine (the creditor-side bookkeeping agent).  Timestamps, dates and
timedeltas are modelled as integers (abstract ticks), 64-bit machine
integers as unbounded integers with explicit range checks exactly where
the source performs them, and floating-point amounts as rationals.
Database rows become structures, queries become list operations, and each
procedure becomes a pure function from the rows it locks to the rows,
emitted signals and pending log entries it produces.
-/

namespace SwptCreditors

/-- src/swpt_creditors/models/common.py: MIN_INT64 = -1 << 63. -/
def MIN_INT64 : Int := -(2 ^ 63)

/-- src/swpt_creditors/models/common.py: MAX_INT64 = (1 << 63) - 1. -/
def MAX_INT64 : Int := 2 ^ 63 - 1

/-- src/swpt_creditors/procedures/account_updates.py: EPS = 1e-5. -/
def EPS : ℚ := 1 / 100000

/-- Modelled from the spec: the constant HUGE_NEGLIGIBLE_AMOUNT is imported
from swpt_creditors.models whose defining module is not under src/; per
§4.2 it is a negligible amount that is "effectively infinite". -/
def HUGE_NEGLIGIBLE_AMOUNT : ℚ := 10 ^ 30

/-- Modelled from the spec: AccountData.CONFIG_SCHEDULED_FOR_DELETION_FLAG
is declared in a models module that is not under src/; §4.2 calls it "a
deletion-scheduled flag".  Its concrete bit value is irrelevant to the
claims; we use bit 0. -/
def CONFIG_SCHEDULED_FOR_DELETION_FLAG : Int := 1

/-- Modelled from the spec: DEFAULT_CONFIG_FLAGS is declared in a models
module that is not under src/; the default carries no set flags. -/
def DEFAULT_CONFIG_FLAGS : Int := 0

/-- Modelled from the spec: swpt_pythonlib.utils.Seqnum is an external
library class; §4.1 describes its comparison as "modular (wrap-around
aware: a 32-bit signed counter that wraps, ordering decided by signed
difference, not raw magnitude)".  a is strictly below b when the signed
32-bit difference b - a is positive. -/
def seqnum_lt (a b : Int) : Bool :=
  decide ((b - a).emod (2 ^ 32) ≠ 0) && decide ((b - a).emod (2 ^ 32) < 2 ^ 31)

/-- Python tuple comparison of the event ordering keys
(creation_date, last_change_ts, Seqnum(last_change_seqnum)) as used in
process_account_update_signal (this_event <= prev_event): lexicographic,
with the seqnum component compared wrap-around aware. -/
def event_le (d1 t1 s1 d2 t2 s2 : Int) : Bool :=
  if d1 ≠ d2 then decide (d1 < d2)
  else if t1 ≠ t2 then decide (t1 < t2)
  else decide (s1 = s2) || seqnum_lt s1 s2

/-- src/swpt_creditors/models/transfers.py: CommittedTransfer row (the
columns consumed by the reconciliation engine). -/
structure CommittedTransfer where
  creation_date : Int
  transfer_number : Int
  acquired_amount : Int
  principal : Int
  committed_at : Int
  previous_transfer_number : Int
deriving DecidableEq

/-- LedgerEntry row (models module): a real transfer entry carries
creation_date and transfer_number; a synthetic correction entry leaves
them unset (NULL). -/
structure LedgerEntry where
  entry_id : Int
  acquired_amount : Int
  principal : Int
  added_at : Int
  creation_date : Option Int
  transfer_number : Option Int
deriving DecidableEq

/-- PendingLogEntry staged by the ledger-update procedures
(object_type_hint = OTH_ACCOUNT_LEDGER form). -/
structure PendingLogEntry where
  added_at : Int
  object_update_id : Int
  data_principal : Int
  data_next_entry_id : Int
deriving DecidableEq

/-- AccountData row: the config, info and ledger facets touched by the
embedded procedures.  is_deletion_safe is a derived property of a models
module that is not under src/; it is modelled as a stored flag since the
embedded procedures only read it. -/
structure AccountData where
  creation_date : Int
  last_change_ts : Int
  last_change_seqnum : Int
  principal : Int
  interest : ℚ
  interest_rate : ℚ
  last_interest_rate_change_ts : Int
  transfer_note_max_bytes : Int
  account_id : String
  debtor_info_iri : Option String
  debtor_info_content_type : Option String
  debtor_info_sha256 : Option (List Nat)
  last_transfer_number : Int
  last_transfer_committed_at : Int
  last_heartbeat_ts : Int
  last_config_ts : Int
  last_config_seqnum : Int
  config_flags : Int
  config_data : String
  negligible_amount : ℚ
  config_error : Option String
  is_config_effectual : Bool
  is_deletion_safe : Bool
  has_server_account : Bool
  ledger_principal : Int
  ledger_last_transfer_number : Int
  ledger_last_entry_id : Int
  ledger_pending_transfer_ts : Option Int
  ledger_latest_update_id : Int
  ledger_latest_update_ts : Int
  info_latest_update_id : Int
  info_latest_update_ts : Int
deriving DecidableEq

/-- Modelled from the spec: contain_principal_overflow lives in
procedures/common.py which is not under src/; §4.2 "Overflow-safe
correction" says each step is "clamped to the largest safe magnitude that
cannot overflow" the signed 64-bit range. -/
def contain_principal_overflow (value : Int) : Int :=
  if value > MAX_INT64 then MAX_INT64
  else if value < -MAX_INT64 then -MAX_INT64
  else value

/-- The while-loop of _make_correcting_ledger_entry_if_necessary
(src/swpt_creditors/procedures/account_updates.py:520-538): splits
correction_amount into overflow-safe ledger entries.  Returns the final
ledger_last_entry_id and the correction entries, in insertion order. -/
def correction_loop (correction_amount ledger_principal last_entry_id
    current_ts : Int) : Int × List LedgerEntry :=
  if correction_amount = 0 then (last_entry_id, [])
  else
    let safe := contain_principal_overflow correction_amount
    let eid := last_entry_id + 1
    let lp := ledger_principal + safe
    let rest := correction_loop (correction_amount - safe) lp eid current_ts
    (rest.1,
      { entry_id := eid, acquired_amount := safe, principal := lp,
        added_at := current_ts, creation_date := none,
        transfer_number := none } :: rest.2)
termination_by correction_amount.natAbs
decreasing_by
  simp only [contain_principal_overflow, MAX_INT64]
  split
  · omega
  · split
    · omega
    · omega

/-- src/swpt_creditors/procedures/account_updates.py:507-540.  Returns the
updated AccountData (only ledger_last_entry_id moves here), the inserted
correction entries and the made_correcting_ledger_entry flag. -/
def make_correcting_ledger_entry_if_necessary (data : AccountData)
    (acquired_amount principal current_ts : Int) :
    AccountData × List LedgerEntry × Bool :=
  let previous_principal := principal - acquired_amount
  if MIN_INT64 ≤ previous_principal ∧ previous_principal ≤ MAX_INT64 then
    let correction_amount := previous_principal - data.ledger_principal
    let r := correction_loop correction_amount data.ledger_principal
      data.ledger_last_entry_id current_ts
    ({ data with ledger_last_entry_id := r.1 }, r.2, !r.2.isEmpty)
  else (data, [], false)

/-- src/swpt_creditors/procedures/account_updates.py:449-504.  Returns the
updated AccountData, all ledger entries inserted (corrections first, then
the real transfer entry when acquired_amount is nonzero) and the pending
log entry, if one is due. -/
def update_ledger (data : AccountData)
    (transfer_number acquired_amount principal current_ts : Int)
    (always_insert_ledger_update_log_entry : Bool := false) :
    AccountData × List LedgerEntry × Option PendingLogEntry :=
  let c := make_correcting_ledger_entry_if_necessary data acquired_amount
    principal current_ts
  let data1 := c.1
  let step :=
    if acquired_amount ≠ 0 then
      let eid := data1.ledger_last_entry_id + 1
      let e : LedgerEntry :=
        { entry_id := eid, acquired_amount := acquired_amount,
          principal := principal, added_at := current_ts,
          creation_date := some data1.creation_date,
          transfer_number := some transfer_number }
      (({ data1 with ledger_last_entry_id := eid } : AccountData),
        c.2.1 ++ [e], true)
    else (data1, c.2.1, c.2.2)
  let data2 := { step.1 with
    ledger_principal := principal,
    ledger_last_transfer_number := transfer_number }
  if step.2.2 || always_insert_ledger_update_log_entry then
    let data3 := { data2 with
      ledger_latest_update_id := data2.ledger_latest_update_id + 1,
      ledger_latest_update_ts := current_ts }
    let le : PendingLogEntry :=
      { added_at := current_ts,
        object_update_id := data3.ledger_latest_update_id,
        data_principal := principal,
        data_next_entry_id := data3.ledger_last_entry_id + 1 }
    (data3, step.2.1, some le)
  else (data2, step.2.1, none)

/-- src/swpt_creditors/procedures/account_updates.py:395-417. -/
def fix_missing_last_transfer_if_necessary (data : AccountData)
    (max_delay current_ts : Int) :
    AccountData × List LedgerEntry × Option PendingLogEntry :=
  if data.ledger_pending_transfer_ts = none
      ∧ data.last_transfer_number > data.ledger_last_transfer_number
      ∧ data.last_transfer_committed_at < current_ts - max_delay then
    update_ledger data data.last_transfer_number 0 data.principal current_ts
  else (data, [], none)

/-- Ascending insertion by transfer_number (the ORDER BY of
_get_sorted_pending_transfers). -/
def insert_by_transfer_number (t : CommittedTransfer) :
    List CommittedTransfer → List CommittedTransfer
  | [] => [t]
  | x :: xs =>
    if t.transfer_number ≤ x.transfer_number then t :: x :: xs
    else x :: insert_by_transfer_number t xs

/-- Insertion sort by transfer_number. -/
def sort_by_transfer_number : List CommittedTransfer → List CommittedTransfer
  | [] => []
  | x :: xs => insert_by_transfer_number x (sort_by_transfer_number xs)

/-- src/swpt_creditors/procedures/account_updates.py:371-392: the
committed transfers of this account and creation date with transfer_number
above the ledger's, ascending, limited to max_count rows. -/
def get_sorted_pending_transfers (data : AccountData)
    (table : List CommittedTransfer) (max_count : Nat) :
    List CommittedTransfer :=
  (sort_by_transfer_number (table.filter (fun t =>
    decide (t.creation_date = data.creation_date) &&
    decide (t.transfer_number > data.ledger_last_transfer_number)))).take
    max_count

/-- Outcome of walking the fetched committed transfers (the for-loop of
process_pending_ledger_update, lines 315-341). -/
structure WalkResult where
  data : AccountData
  entries : List LedgerEntry
  log_entry : Option PendingLogEntry
  broke : Bool
deriving DecidableEq

/-- The for-loop of process_pending_ledger_update: apply facts in order;
on a young gap record ledger_pending_transfer_ts and break. -/
def walk_transfers (max_delay current_ts : Int) (data : AccountData) :
    List CommittedTransfer → WalkResult
  | [] => ⟨data, [], none, false⟩
  | t :: rest =>
    if t.previous_transfer_number ≠ data.ledger_last_transfer_number
        ∧ t.committed_at ≥ current_ts - max_delay then
      ⟨{ data with ledger_pending_transfer_ts := some t.committed_at },
        [], none, true⟩
    else
      let u := update_ledger data t.transfer_number t.acquired_amount
        t.principal current_ts
      let w := walk_transfers max_delay current_ts u.1 rest
      ⟨w.data, u.2.1 ++ w.entries,
        if w.log_entry.isSome then w.log_entry else u.2.2, w.broke⟩

/-- Outcome of one reconciliation pass. -/
structure ProcessLedgerUpdateResult where
  data : AccountData
  entries : List LedgerEntry
  log_entry : Option PendingLogEntry
  is_done : Bool
  marker_deleted : Bool
deriving DecidableEq

/-- src/swpt_creditors/procedures/account_updates.py:260-368 (the
non-PG/PLSQL path).  marker_present mirrors whether the
PendingLedgerUpdate row exists; table is the CommittedTransfer rows of the
account.  An UpdatedLedgerSignal is emitted exactly when log_entry is
some. -/
def process_pending_ledger_update (marker_present : Bool)
    (data : AccountData) (table : List CommittedTransfer)
    (burst_count : Nat) (max_delay current_ts : Int) :
    ProcessLedgerUpdateResult :=
  if marker_present = false then ⟨data, [], none, true, false⟩
  else
    let transfers := get_sorted_pending_transfers data table burst_count
    let w := walk_transfers max_delay current_ts data transfers
    let data1 :=
      if w.broke then w.data
      else { w.data with ledger_pending_transfer_ts := none }
    let is_done := if w.broke then true else decide (transfers.length < burst_count)
    if is_done then
      let f := fix_missing_last_transfer_if_necessary data1 max_delay
        current_ts
      ⟨f.1, w.entries ++ f.2.1,
        if f.2.2.isSome then f.2.2 else w.log_entry, true, true⟩
    else ⟨data1, w.entries, w.log_entry, false, false⟩


/-- The correction entries produced by the overflow-safe correction loop
sum exactly to the requested correction amount. -/
theorem correction_loop_sum (v lp id ts : Int) :
    ((correction_loop v lp id ts).2.map (fun e => e.acquired_amount)).sum
      = v := by
  induction v, lp, id, ts using correction_loop.induct with
  | case1 lp id ts =>
    rw [correction_loop]
    simp
  | case2 v lp id ts h safe eid lp2 ih =>
    rw [correction_loop]
    simp only [if_neg h, List.map_cons, List.sum_cons]
    have hs : safe = contain_principal_overflow v := rfl
    rw [hs] at ih
    rw [ih]
    ring

/-- The correction loop produces no entries exactly when no correction is
needed. -/
theorem correction_loop_nil_iff (v lp id ts : Int) :
    (correction_loop v lp id ts).2 = [] ↔ v = 0 := by
  constructor
  · intro hnil
    by_contra hv
    rw [correction_loop] at hnil
    simp [if_neg hv] at hnil
  · intro hv
    rw [correction_loop]
    simp [hv]

/-- A concrete AccountData row used by witnesses and counterexamples. -/
def data0 : AccountData :=
  { creation_date := 0, last_change_ts := 0, last_change_seqnum := 0,
    principal := 0, interest := 0, interest_rate := 0,
    last_interest_rate_change_ts := 0, transfer_note_max_bytes := 500,
    account_id := "1", debtor_info_iri := none,
    debtor_info_content_type := none, debtor_info_sha256 := none,
    last_transfer_number := 0, last_transfer_committed_at := 0,
    last_heartbeat_ts := 0, last_config_ts := 0, last_config_seqnum := 0,
    config_flags := 0, config_data := "", negligible_amount := 10,
    config_error := none, is_config_effectual := true,
    is_deletion_safe := false, has_server_account := true,
    ledger_principal := 0, ledger_last_transfer_number := 0,
    ledger_last_entry_id := 0, ledger_pending_transfer_ts := none,
    ledger_latest_update_id := 1, ledger_latest_update_ts := 0,
    info_latest_update_id := 1, info_latest_update_ts := 0 }

/-- Numeric value of MIN_INT64. -/
theorem MIN_INT64_eq : MIN_INT64 = -9223372036854775808 := by
  norm_num [MIN_INT64]

/-- Numeric value of MAX_INT64. -/
theorem MAX_INT64_eq : MAX_INT64 = 9223372036854775807 := by
  norm_num [MAX_INT64]

/-- C10: in update_ledger, correcting ledger entries are produced only when
previous_principal = principal - acquired_amount lies within the signed
64-bit range; whenever principal - acquired_amount falls outside
[-2^63, 2^63 - 1], no correcting ledger entry is made at all, and the
ledger principal is set to the new value with no entries explaining the
difference from the old ledger principal (every inserted entry is the real
transfer entry). -/
theorem claim_C10 (data : AccountData) (tn a p ts : Int)
    (h : p - a < MIN_INT64 ∨ p - a > MAX_INT64) :
    make_correcting_ledger_entry_if_necessary data a p ts = (data, [], false)
    ∧ (update_ledger data tn a p ts).1.ledger_principal = p
    ∧ ∀ e ∈ (update_ledger data tn a p ts).2.1,
        e.transfer_number = some tn := by
  have hcond : ¬(MIN_INT64 ≤ p - a ∧ p - a ≤ MAX_INT64) := by
    rcases h with h | h <;> omega
  have hmk : make_correcting_ledger_entry_if_necessary data a p ts
      = (data, [], false) := by
    simp only [make_correcting_ledger_entry_if_necessary, if_neg hcond]
  refine ⟨hmk, ?_, ?_⟩
  · simp only [update_ledger, hmk]
    split <;> split <;> rfl
  · simp only [update_ledger, hmk]
    split
    · split
      · intro e he
        simp only [List.nil_append, List.mem_singleton] at he
        subst he
        rfl
      · intro e he
        simp only [List.nil_append, List.mem_singleton] at he
        subst he
        rfl
    · split
      · intro e he
        simp at he
      · intro e he
        simp at he

/-- Witness for C10 at previous_principal = MAX_INT64 + 1 (out of range). -/
theorem claim_C10_witness :
    (MAX_INT64 - (-1) < MIN_INT64 ∨ MAX_INT64 - (-1) > MAX_INT64)
    ∧ (make_correcting_ledger_entry_if_necessary data0 (-1) MAX_INT64 0
        = (data0, [], false)
      ∧ (update_ledger data0 1 (-1) MAX_INT64 0).1.ledger_principal
          = MAX_INT64
      ∧ ∀ e ∈ (update_ledger data0 1 (-1) MAX_INT64 0).2.1,
          e.transfer_number = some 1) :=
  ⟨by rw [MIN_INT64_eq, MAX_INT64_eq]; decide,
    claim_C10 data0 1 (-1) MAX_INT64 0
      (by rw [MIN_INT64_eq, MAX_INT64_eq]; decide)⟩

/-- C2: when the peer-reported last_transfer_number is ahead of the ledger,
its commit is older than now - max_delay, and no committed-transfer fact
for the gap is available, a reconciliation pass reports drained = true
with the ledger converged to the peer-reported
(last_transfer_number, principal), and the acquired_amounts of the
synthesized correction entries sum exactly to the principal jump. -/
theorem claim_C2 (data : AccountData) (table : List CommittedTransfer)
    (burst_count : Nat) (max_delay current_ts : Int)
    (hq : get_sorted_pending_transfers data table burst_count = [])
    (hb : 0 < burst_count)
    (hmiss : data.last_transfer_number > data.ledger_last_transfer_number)
    (hold : data.last_transfer_committed_at < current_ts - max_delay)
    (hlo : MIN_INT64 ≤ data.principal) (hhi : data.principal ≤ MAX_INT64) :
    (process_pending_ledger_update true data table burst_count max_delay
      current_ts).is_done = true
    ∧ (process_pending_ledger_update true data table burst_count max_delay
      current_ts).data.ledger_last_transfer_number
        = data.last_transfer_number
    ∧ (process_pending_ledger_update true data table burst_count max_delay
      current_ts).data.ledger_principal = data.principal
    ∧ ((process_pending_ledger_update true data table burst_count max_delay
      current_ts).entries.map (fun e => e.acquired_amount)).sum
        = data.principal - data.ledger_principal := by
  have hdec : decide (0 < burst_count) = true := by
    simpa using hb
  have hfix : fix_missing_last_transfer_if_necessary
      { data with ledger_pending_transfer_ts := none } max_delay current_ts
      = update_ledger { data with ledger_pending_transfer_ts := none }
          data.last_transfer_number 0 data.principal current_ts := by
    rw [fix_missing_last_transfer_if_necessary, if_pos]
    exact ⟨rfl, hmiss, hold⟩
  have hrange : MIN_INT64 ≤ data.principal ∧ data.principal ≤ MAX_INT64 :=
    ⟨hlo, hhi⟩
  simp only [process_pending_ledger_update, hq, walk_transfers,
    List.length_nil, hdec, Bool.false_eq_true, Bool.true_eq_false,
    if_false, if_true, ite_true, ite_false]
  rw [hfix]
  simp only [update_ledger, make_correcting_ledger_entry_if_necessary,
    sub_zero, hrange, and_self, ite_true, if_true, ne_eq,
    not_true_eq_false, if_false, ite_false, not_false_iff]
  by_cases hnil : (correction_loop
      (data.principal - data.ledger_principal) data.ledger_principal
      data.ledger_last_entry_id current_ts).2 = []
  · have hv : data.principal - data.ledger_principal = 0 :=
      (correction_loop_nil_iff _ _ _ _).mp hnil
    simp only [hnil, List.isEmpty_nil, Bool.not_true, Bool.false_or,
      Bool.or_false, Bool.false_eq_true, if_false, ite_false,
      List.map_nil, List.sum_nil]
    refine ⟨trivial, trivial, trivial, ?_⟩
    simp only [List.nil_append, List.append_nil, List.map_nil,
      List.sum_nil]
    omega
  · have hne : (correction_loop
        (data.principal - data.ledger_principal) data.ledger_principal
        data.ledger_last_entry_id current_ts).2.isEmpty = false := by
      simpa [List.isEmpty_iff] using hnil
    simp only [hne, Bool.not_false, Bool.true_or, Bool.or_false,
      if_true, ite_true]
    refine ⟨trivial, trivial, trivial, ?_⟩
    simpa using correction_loop_sum
      (data.principal - data.ledger_principal) data.ledger_principal
      data.ledger_last_entry_id current_ts

/-- Concrete AccountData for the C2 witness: the peer reports transfer 3
with principal 1000, committed long ago, while the ledger is still at
transfer 0. -/
def data2w : AccountData :=
  { data0 with
    last_transfer_number := 3,
    last_transfer_committed_at := -100,
    principal := 1000 }

/-- Witness for C2 at a concrete account with an old missing transfer. -/
theorem claim_C2_witness :
    (get_sorted_pending_transfers data2w [] 10 = []
      ∧ 0 < 10
      ∧ data2w.last_transfer_number > data2w.ledger_last_transfer_number
      ∧ data2w.last_transfer_committed_at < 0 - 10
      ∧ MIN_INT64 ≤ data2w.principal ∧ data2w.principal ≤ MAX_INT64)
    ∧ (process_pending_ledger_update true data2w [] 10 10 0).is_done = true
    ∧ (process_pending_ledger_update true data2w [] 10 10
        0).data.ledger_last_transfer_number = data2w.last_transfer_number
    ∧ (process_pending_ledger_update true data2w [] 10 10
        0).data.ledger_principal = data2w.principal
    ∧ ((process_pending_ledger_update true data2w [] 10 10
        0).entries.map (fun e => e.acquired_amount)).sum
        = data2w.principal - data2w.ledger_principal := by
  refine ⟨⟨rfl, by decide, by decide, by decide,
    by rw [MIN_INT64_eq]; decide, by rw [MAX_INT64_eq]; decide⟩, ?_⟩
  exact claim_C2 data2w [] 10 10 0 rfl (by decide) (by decide) (by decide)
    (by rw [MIN_INT64_eq]; decide) (by rw [MAX_INT64_eq]; decide)

/-- Preferring the later of two optional pending log entries (the Python
idiom log_entry = new or log_entry) is associative. -/
theorem option_pref_assoc (a b c : Option PendingLogEntry) :
    (if a.isSome then a else if b.isSome then b else c)
      = (if (if a.isSome then a else b).isSome
          then (if a.isSome then a else b) else c) := by
  cases a <;> cases b <;> simp

/-- Walking a concatenation of fact lists: when the first part hits no
gap, the walk continues through the second part from the state the first
part produced. -/
theorem walk_transfers_append (max_delay current_ts : Int)
    (data : AccountData) (l1 l2 : List CommittedTransfer)
    (h : (walk_transfers max_delay current_ts data l1).broke = false) :
    walk_transfers max_delay current_ts data (l1 ++ l2)
      = ⟨(walk_transfers max_delay current_ts
            (walk_transfers max_delay current_ts data l1).data l2).data,
          (walk_transfers max_delay current_ts data l1).entries
            ++ (walk_transfers max_delay current_ts
                (walk_transfers max_delay current_ts data l1).data
                l2).entries,
          (if (walk_transfers max_delay current_ts
                (walk_transfers max_delay current_ts data l1).data
                l2).log_entry.isSome
            then (walk_transfers max_delay current_ts
                (walk_transfers max_delay current_ts data l1).data
                l2).log_entry
            else (walk_transfers max_delay current_ts data l1).log_entry),
          (walk_transfers max_delay current_ts
            (walk_transfers max_delay current_ts data l1).data
            l2).broke⟩ := by
  have hpref : ∀ x : Option PendingLogEntry,
      (if x.isSome then x else none) = x := by
    intro x
    cases x <;> simp
  induction l1 generalizing data with
  | nil =>
    simp only [List.nil_append, walk_transfers, hpref]
  | cons t rest ih =>
    by_cases hg : t.previous_transfer_number
        ≠ data.ledger_last_transfer_number
        ∧ t.committed_at ≥ current_ts - max_delay
    · rw [walk_transfers, if_pos hg] at h
      simp at h
    · simp only [List.cons_append, walk_transfers, if_neg hg,
        List.append_eq] at h ⊢
      rw [ih _ h]
      congr 1
      · simp only [List.append_assoc]
      · exact (option_pref_assoc _ _ _).symm

/-- C1 (amended): when the walk over the fetched facts, in ascending
transfer_number order, encounters a fact whose previous_transfer_number
differs from the current ledger_last_transfer_number and whose
committed_at is within max_delay of now, the pass sets
ledger_pending_transfer_ts to that fact's committed_at, applies no
further facts, and returns drained = true (deleting the pending-update
marker). -/
theorem claim_C1_amended (data : AccountData)
    (table : List CommittedTransfer) (burst_count : Nat)
    (max_delay current_ts : Int) (pre post : List CommittedTransfer)
    (f : CommittedTransfer)
    (hq : get_sorted_pending_transfers data table burst_count
      = pre ++ f :: post)
    (hpre : (walk_transfers max_delay current_ts data pre).broke = false)
    (hgap : f.previous_transfer_number ≠ (walk_transfers max_delay
      current_ts data pre).data.ledger_last_transfer_number)
    (hyoung : f.committed_at ≥ current_ts - max_delay) :
    process_pending_ledger_update true data table burst_count max_delay
      current_ts
      = ⟨{ (walk_transfers max_delay current_ts data pre).data with
            ledger_pending_transfer_ts := some f.committed_at },
          (walk_transfers max_delay current_ts data pre).entries,
          (walk_transfers max_delay current_ts data pre).log_entry,
          true, true⟩ := by
  have hw := walk_transfers_append max_delay current_ts data pre
    (f :: post) hpre
  rw [walk_transfers, if_pos ⟨hgap, hyoung⟩] at hw
  simp only [Option.isSome_none, Bool.false_eq_true, if_false, ite_false,
    List.append_nil] at hw
  have hfix : fix_missing_last_transfer_if_necessary
      { (walk_transfers max_delay current_ts data pre).data with
        ledger_pending_transfer_ts := some f.committed_at }
      max_delay current_ts
      = ({ (walk_transfers max_delay current_ts data pre).data with
          ledger_pending_transfer_ts := some f.committed_at }, [], none)
      := by
    rw [fix_missing_last_transfer_if_necessary, if_neg]
    simp
  simp only [process_pending_ledger_update, hq, hw, Bool.true_eq_false,
    Bool.false_eq_true, if_false, ite_false, if_true, ite_true, hfix,
    Option.isSome_none, List.append_nil]

/-- C1 counterexample: a single fresh fact with a gapped
previous_transfer_number makes the pass record ledger_pending_transfer_ts
and stop, yet the pass returns drained = true, not the claimed
drained = false. -/
theorem claim_C1_counterexample :
    (process_pending_ledger_update true data0
        [⟨0, 2, 5, 105, 100, 1⟩] 10 1000 500).data.ledger_pending_transfer_ts
      = some 100
    ∧ (process_pending_ledger_update true data0
        [⟨0, 2, 5, 105, 100, 1⟩] 10 1000 500).is_done = true := by
  constructor <;> rfl

/-- Witness for the amended C1 at the concrete gapped fact. -/
theorem claim_C1_witness :
    (get_sorted_pending_transfers data0 [⟨0, 2, 5, 105, 100, 1⟩] 10
        = [] ++ (⟨0, 2, 5, 105, 100, 1⟩ : CommittedTransfer) :: [])
    ∧ process_pending_ledger_update true data0 [⟨0, 2, 5, 105, 100, 1⟩]
        10 1000 500
      = ⟨{ (walk_transfers 1000 500 data0 []).data with
            ledger_pending_transfer_ts := some 100 },
          (walk_transfers 1000 500 data0 []).entries,
          (walk_transfers 1000 500 data0 []).log_entry, true, true⟩ :=
  ⟨rfl, claim_C1_amended data0 [⟨0, 2, 5, 105, 100, 1⟩] 10 1000 500 [] []
    ⟨0, 2, 5, 105, 100, 1⟩ rfl rfl (by decide) (by decide)⟩

/-- Inbound AccountUpdate (account snapshot) signal fields, as consumed by
process_account_update_signal. -/
structure AccountUpdateSignal where
  creation_date : Int
  last_change_ts : Int
  last_change_seqnum : Int
  principal : Int
  interest : ℚ
  interest_rate : ℚ
  last_interest_rate_change_ts : Int
  transfer_note_max_bytes : Int
  last_config_ts : Int
  last_config_seqnum : Int
  negligible_amount : ℚ
  config_flags : Int
  config_data : String
  account_id : String
  debtor_info_iri : Option String
  debtor_info_content_type : Option String
  debtor_info_sha256 : Option (List Nat)
  last_transfer_number : Int
  last_transfer_committed_at : Int
  ts : Int
  ttl : Int
deriving DecidableEq

/-- A pending log entry announcing a change of the account-info
resource. -/
structure InfoLogEntry where
  added_at : Int
  object_update_id : Int
deriving DecidableEq

/-- Modelled from the spec: _insert_info_update_pending_log_entry lives in
procedures/accounts.py which is not under src/; per §4.2 step 5 it
enqueues an info-change log entry, bumping the info facet's version per
the latest_update_id/ts pattern of §4.1. -/
def insert_info_update_pending_log_entry (data : AccountData)
    (current_ts : Int) : AccountData × InfoLogEntry :=
  let d := { data with
    info_latest_update_id := data.info_latest_update_id + 1,
    info_latest_update_ts := current_ts }
  let e : InfoLogEntry :=
    { added_at := current_ts,
      object_update_id := d.info_latest_update_id }
  (d, e)

/-- src/swpt_creditors/procedures/account_updates.py:420-446: whether a
ConfigureAccountSignal is emitted for an orphaned remote account (the
flag test config_flags & CONFIG_SCHEDULED_FOR_DELETION_FLAG becomes an
odd-parity test since the modelled flag is bit 0). -/
def discard_orphaned_account (config_flags : Int)
    (negligible_amount : ℚ) : Bool :=
  let is_already_discarded :=
    decide (config_flags.emod 2 = 1)
    && decide (negligible_amount ≥ (1 - EPS) * HUGE_NEGLIGIBLE_AMOUNT)
  !is_already_discarded

/-- Outcome of process_account_update_signal: the stored AccountData (if
a row existed), the enqueued log entries, the inserted ledger entries,
and which outbound signals / markers were produced. -/
structure AccountUpdateResult where
  data : Option AccountData
  info_log_entries : List InfoLogEntry
  ledger_entries : List LedgerEntry
  ledger_log_entry : Option PendingLogEntry
  updated_ledger_signal : Bool
  configure_signal : Bool
  ensure_pending_ledger_update : Bool
deriving DecidableEq

/-- src/swpt_creditors/procedures/account_updates.py:82-221. -/
def process_account_update_signal (data? : Option AccountData)
    (sig : AccountUpdateSignal) (current_ts : Int) : AccountUpdateResult :=
  if current_ts - sig.ts > sig.ttl then
    ⟨data?, [], [], none, false, false, false⟩
  else
    match data? with
    | none =>
      ⟨none, [], [], none, false,
        discard_orphaned_account sig.config_flags sig.negligible_amount,
        false⟩
    | some data =>
      let data :=
        if sig.ts > data.last_heartbeat_ts then
          { data with last_heartbeat_ts := min sig.ts current_ts }
        else data
      if event_le sig.creation_date sig.last_change_ts
          sig.last_change_seqnum data.creation_date data.last_change_ts
          data.last_change_seqnum then
        ⟨some data, [], [], none, false, false, false⟩
      else
        let is_new_server_account : Bool :=
          decide (sig.creation_date > data.creation_date)
        let is_account_id_changed : Bool :=
          decide (sig.account_id ≠ data.account_id)
        let is_config_effectual : Bool :=
          decide (sig.last_config_ts = data.last_config_ts)
          && decide (sig.last_config_seqnum = data.last_config_seqnum)
          && decide (sig.config_flags = data.config_flags)
          && decide (sig.config_data = data.config_data)
          && decide (|data.negligible_amount - sig.negligible_amount|
            ≤ EPS * sig.negligible_amount)
        let config_error :=
          if is_config_effectual then none else data.config_error
        let is_info_updated : Bool :=
          data.is_deletion_safe
          || decide (data.account_id ≠ sig.account_id)
          || decide (|data.interest_rate - sig.interest_rate|
            > EPS * sig.interest_rate)
          || decide (data.last_interest_rate_change_ts
            ≠ sig.last_interest_rate_change_ts)
          || decide (data.transfer_note_max_bytes
            ≠ sig.transfer_note_max_bytes)
          || decide (data.debtor_info_iri ≠ sig.debtor_info_iri)
          || decide (data.debtor_info_content_type
            ≠ sig.debtor_info_content_type)
          || decide (data.debtor_info_sha256 ≠ sig.debtor_info_sha256)
          || decide (data.config_error ≠ config_error)
        let data := { data with
          has_server_account := true,
          creation_date := sig.creation_date,
          last_change_ts := sig.last_change_ts,
          last_change_seqnum := sig.last_change_seqnum,
          principal := sig.principal,
          interest := sig.interest,
          interest_rate := sig.interest_rate,
          last_interest_rate_change_ts := sig.last_interest_rate_change_ts,
          transfer_note_max_bytes := sig.transfer_note_max_bytes,
          account_id := sig.account_id,
          debtor_info_iri := sig.debtor_info_iri,
          debtor_info_content_type := sig.debtor_info_content_type,
          debtor_info_sha256 := sig.debtor_info_sha256,
          last_transfer_number := sig.last_transfer_number,
          last_transfer_committed_at := sig.last_transfer_committed_at,
          is_config_effectual := is_config_effectual,
          config_error := config_error }
        let step :=
          if is_info_updated then
            let r := insert_info_update_pending_log_entry data current_ts
            (r.1, [r.2])
          else (data, [])
        let data := step.1
        let info_log_entries := step.2
        if is_new_server_account || is_account_id_changed then
          let reset :=
            if is_new_server_account then
              (({ data with ledger_pending_transfer_ts := none }
                  : AccountData), (0 : Int), (0 : Int))
            else (data, data.ledger_principal,
              data.ledger_last_transfer_number)
          let u := update_ledger reset.1 reset.2.2 0 reset.2.1 current_ts
            true
          ⟨some u.1, info_log_entries, u.2.1, u.2.2, u.2.2.isSome, false,
            true⟩
        else
          ⟨some data, info_log_entries, [], none, false, false, false⟩

/-- A concrete snapshot signal whose origination timestamp (ts = 100)
lies in the future of the local clock at both deliveries. -/
def sig0 : AccountUpdateSignal :=
  { creation_date := 0, last_change_ts := 1, last_change_seqnum := 0,
    principal := 0, interest := 0, interest_rate := 0,
    last_interest_rate_change_ts := 0, transfer_note_max_bytes := 500,
    last_config_ts := 0, last_config_seqnum := 0,
    negligible_amount := 10, config_flags := 0, config_data := "",
    account_id := "1", debtor_info_iri := none,
    debtor_info_content_type := none, debtor_info_sha256 := none,
    last_transfer_number := 0, last_transfer_committed_at := 0,
    ts := 100, ttl := 1000000 }

/-- The AccountData row after sig0 has been applied at local time 10:
only last_change_ts and last_heartbeat_ts move relative to data0
(the heartbeat becomes min(ts, current_ts) = 10). -/
def dataA : AccountData :=
  { data0 with last_change_ts := 1, last_heartbeat_ts := 10 }

/-- dataA is indeed the state process_account_update_signal produces when
sig0 is first applied to data0 at local time 10. -/
theorem dataA_is_applied :
    process_account_update_signal (some data0) sig0 10
      = ⟨some dataA, [], [], none, false, false, false⟩ := by
  have hcfg : |data0.negligible_amount - sig0.negligible_amount|
      ≤ EPS * sig0.negligible_amount := by
    norm_num [data0, sig0, EPS]
  have hir : ¬(|data0.interest_rate - sig0.interest_rate|
      > EPS * sig0.interest_rate) := by
    norm_num [data0, sig0, EPS]
  rw [process_account_update_signal]
  norm_num [data0, sig0, dataA, event_le, seqnum_lt, hcfg, hir]
  norm_num [EPS]

/-- C3 counterexample: sig0 has already been applied to dataA (its
ordering key equals the stored key), yet re-delivering it at local time
20 changes the AccountData row: the heartbeat bump runs before the
ordering-key discard, and min(ts, current_ts) moves last_heartbeat_ts
from 10 to 20 because ts = 100 is in the clock's future. -/
theorem claim_C3_counterexample :
    event_le sig0.creation_date sig0.last_change_ts sig0.last_change_seqnum
      dataA.creation_date dataA.last_change_ts dataA.last_change_seqnum
      = true
    ∧ (process_account_update_signal (some dataA) sig0 20).data
      ≠ some dataA
    ∧ (process_account_update_signal (some dataA) sig0
        20).info_log_entries = []
    ∧ (process_account_update_signal (some dataA) sig0
        20).ledger_log_entry = none := by
  refine ⟨by decide, ?_, by decide, by decide⟩
  decide

/-- C3 (amended): re-delivering an already-applied AccountSnapshot signal
whose ordering key is equal to or older than the stored key leaves every
field of the AccountData row unchanged except possibly last_heartbeat_ts
(which the heartbeat bump, running before the ordering-key discard, may
rewrite to min(ts, now)), and enqueues no log entry, inserts no ledger
entry, emits no signal and creates no pending-ledger-update marker. -/
theorem claim_C3_amended (data : AccountData) (sig : AccountUpdateSignal)
    (current_ts : Int)
    (h : event_le sig.creation_date sig.last_change_ts
      sig.last_change_seqnum data.creation_date data.last_change_ts
      data.last_change_seqnum = true) :
    ∃ hb : Int, process_account_update_signal (some data) sig current_ts
      = ⟨some { data with last_heartbeat_ts := hb }, [], [], none,
          false, false, false⟩ := by
  rw [process_account_update_signal]
  by_cases httl : current_ts - sig.ts > sig.ttl
  · refine ⟨data.last_heartbeat_ts, ?_⟩
    rw [if_pos httl]
  · rw [if_neg httl]
    by_cases hhb : sig.ts > data.last_heartbeat_ts
    · refine ⟨min sig.ts current_ts, ?_⟩
      simp only [if_pos hhb]
      rw [if_pos]
      simpa using h
    · refine ⟨data.last_heartbeat_ts, ?_⟩
      simp only [if_neg hhb]
      rw [if_pos]
      simpa using h

/-- Witness for the amended C3: the second delivery of sig0. -/
theorem claim_C3_witness :
    (event_le sig0.creation_date sig0.last_change_ts
      sig0.last_change_seqnum dataA.creation_date dataA.last_change_ts
      dataA.last_change_seqnum = true)
    ∧ ∃ hb : Int,
        process_account_update_signal (some dataA) sig0 20
          = ⟨some { dataA with last_heartbeat_ts := hb }, [], [], none,
              false, false, false⟩ :=
  ⟨by decide, claim_C3_amended dataA sig0 20 (by decide)⟩

/-- Creditor row: the log-entry counter and the per-resource
(latest_update_id, latest_update_ts) pairs touched by the embedded
procedures. -/
structure Creditor where
  creditor_id : Int
  last_log_entry_id : Int
  creditor_latest_update_id : Int
  creditor_latest_update_ts : Int
  transfer_list_latest_update_id : Int
  transfer_list_latest_update_ts : Int
deriving DecidableEq

/-- Modelled from the spec: Creditor.generate_log_entry_id is declared in
a models module that is not under src/; §3 gives the Creditor "a
monotonically increasing log-entry sequence counter" and §4.4 flush
"assigns the next entry_id from the creditor's counter". -/
def generate_log_entry_id (c : Creditor) : Creditor × Int :=
  ({ c with last_log_entry_id := c.last_log_entry_id + 1 },
    c.last_log_entry_id + 1)

/-- Modelled from the spec: get_paths_and_types lives in
procedures/common.py which is not under src/; types.transfer is the
object-type name of the transfer resource. -/
def TYPE_TRANSFER : String := "Transfer"

/-- Modelled from the spec: types.transfer_list (see TYPE_TRANSFER). -/
def TYPE_TRANSFER_LIST : String := "TransferList"

/-- Modelled from the spec: types.creditor (see TYPE_TRANSFER). -/
def TYPE_CREDITOR : String := "Creditor"

/-- Modelled from the spec: paths.transfer_list of procedures/common.py
(not under src/): the URI of a creditor's transfer-list resource. -/
def transfer_list_path (creditor_id : Int) : String :=
  "/creditors/" ++ toString creditor_id ++ "/transfer-list"

/-- Modelled from the spec: paths.creditor of procedures/common.py (not
under src/): the URI of the creditor resource. -/
def creditor_path (creditor_id : Int) : String :=
  "/creditors/" ++ toString creditor_id ++ "/"

/-- Durable LogEntry row (the columns written by _add_log_entry in
src/swpt_creditors/procedures/creditors.py:302-321). -/
structure LogEntry where
  entry_id : Int
  object_type : String
  object_uri : String
  object_update_id : Option Int
  added_at_ts : Int
  is_deleted : Bool
  data : Option String
deriving DecidableEq

/-- PendingLogEntry row as consumed by the flush
(src/swpt_creditors/procedures/creditors.py:86-128).  is_created is a
derived property of a models module that is not under src/ and is
modelled as a stored flag, since the flush only reads it. -/
structure PendingLogEntryRow where
  pending_entry_id : Int
  object_type : String
  object_uri : String
  object_update_id : Option Int
  added_at_ts : Int
  is_deleted : Bool
  is_created : Bool
  data : Option String
deriving DecidableEq

/-- src/swpt_creditors/procedures/creditors.py:302-321: append one
durable LogEntry, drawing the next entry_id from the creditor's
counter. -/
def add_log_entry (c : Creditor) (object_type object_uri : String)
    (object_update_id : Option Int) (added_at_ts : Int)
    (is_deleted : Bool) (data : Option String) : Creditor × LogEntry :=
  let g := generate_log_entry_id c
  (g.1,
    { entry_id := g.2, object_type := object_type,
      object_uri := object_uri, object_update_id := object_update_id,
      added_at_ts := added_at_ts, is_deleted := is_deleted,
      data := data })

/-- The flush's test for a pending entry that records a transfer's
creation or deletion (creditors.py:117). -/
def is_transfer_creation_or_deletion (e : PendingLogEntryRow) : Bool :=
  decide (e.object_type = TYPE_TRANSFER) && (e.is_created || e.is_deleted)

/-- The for-loop of process_pending_log_entries: convert each pending
entry into a durable LogEntry, append the extra transfer-list entry when
due, and delete the pending entry.  Returns the updated creditor, the
durable entries in order, and the pending_entry_ids deleted. -/
def flush_loop (c : Creditor) :
    List PendingLogEntryRow → Creditor × List LogEntry × List Int
  | [] => (c, [], [])
  | e :: rest =>
    let a1 := add_log_entry c e.object_type e.object_uri
      e.object_update_id e.added_at_ts e.is_deleted e.data
    let step :=
      if is_transfer_creation_or_deletion e then
        let c2 := { a1.1 with
          transfer_list_latest_update_id :=
            a1.1.transfer_list_latest_update_id + 1,
          transfer_list_latest_update_ts := e.added_at_ts }
        let a2 := add_log_entry c2 TYPE_TRANSFER_LIST
          (transfer_list_path c2.creditor_id)
          (some c2.transfer_list_latest_update_id)
          c2.transfer_list_latest_update_ts false none
        (a2.1, [a1.2, a2.2])
      else (a1.1, [a1.2])
    let r := flush_loop step.1 rest
    (r.1, step.2 ++ r.2.1, e.pending_entry_id :: r.2.2)

/-- Ascending insertion by pending_entry_id (the ORDER BY of the flush's
query). -/
def insert_by_pending_entry_id (e : PendingLogEntryRow) :
    List PendingLogEntryRow → List PendingLogEntryRow
  | [] => [e]
  | x :: xs =>
    if e.pending_entry_id ≤ x.pending_entry_id then e :: x :: xs
    else x :: insert_by_pending_entry_id e xs

/-- Insertion sort by pending_entry_id. -/
def sort_by_pending_entry_id :
    List PendingLogEntryRow → List PendingLogEntryRow
  | [] => []
  | x :: xs => insert_by_pending_entry_id x (sort_by_pending_entry_id xs)

/-- src/swpt_creditors/procedures/creditors.py:86-128: one log flush for
a creditor; table is the creditor's pending log entries. -/
def process_pending_log_entries (c? : Option Creditor)
    (table : List PendingLogEntryRow) :
    Option (Creditor × List LogEntry × List Int) :=
  match c? with
  | none => none
  | some c => some (flush_loop c (sort_by_pending_entry_id table))

/-- Flush-loop invariant: the durable entries number the pending entries
plus one extra per transfer-creation/deletion entry; their entry_ids
strictly ascend starting right above the creditor's counter; the counter
advances by exactly the number of entries; and every pending entry is
deleted. -/
theorem flush_loop_spec (ps : List PendingLogEntryRow) : ∀ c : Creditor,
    (flush_loop c ps).2.1.length
      = ps.length + (ps.filter is_transfer_creation_or_deletion).length
    ∧ List.Chain (fun a b => a < b) c.last_log_entry_id
        ((flush_loop c ps).2.1.map (fun l => l.entry_id))
    ∧ (flush_loop c ps).1.last_log_entry_id
      = c.last_log_entry_id + (flush_loop c ps).2.1.length
    ∧ (flush_loop c ps).2.2 = ps.map (fun e => e.pending_entry_id) := by
  induction ps with
  | nil =>
    intro c
    simp [flush_loop]
  | cons e rest ih =>
    intro c
    by_cases ht : is_transfer_creation_or_deletion e = true
    · obtain ⟨ih1, ih2, ih3, ih4⟩ := ih
        (⟨c.creditor_id, c.last_log_entry_id + 1 + 1,
          c.creditor_latest_update_id, c.creditor_latest_update_ts,
          c.transfer_list_latest_update_id + 1, e.added_at_ts⟩
          : Creditor)
      simp only [flush_loop, add_log_entry, generate_log_entry_id, ht,
        if_true, ite_true, List.filter_cons, List.length_cons,
        List.map_cons, List.map_append, List.length_append,
        List.cons_append, List.nil_append]
      refine ⟨?_, ?_, ?_, ?_⟩
      · rw [ih1]
        omega
      · exact List.Chain.cons (by omega)
          (List.Chain.cons (by omega) ih2)
      · have ih3' : (flush_loop
            (⟨c.creditor_id, c.last_log_entry_id + 1 + 1,
          c.creditor_latest_update_id, c.creditor_latest_update_ts,
          c.transfer_list_latest_update_id + 1, e.added_at_ts⟩
          : Creditor) rest).1.last_log_entry_id
            = c.last_log_entry_id + 1 + 1
              + ((flush_loop
                (⟨c.creditor_id, c.last_log_entry_id + 1 + 1,
          c.creditor_latest_update_id, c.creditor_latest_update_ts,
          c.transfer_list_latest_update_id + 1, e.added_at_ts⟩
          : Creditor) rest).2.1.length : Int) := ih3
        rw [ih3']
        push_cast
        omega
      · rw [ih4]
    · obtain ⟨ih1, ih2, ih3, ih4⟩ := ih
        (⟨c.creditor_id, c.last_log_entry_id + 1,
          c.creditor_latest_update_id, c.creditor_latest_update_ts,
          c.transfer_list_latest_update_id,
          c.transfer_list_latest_update_ts⟩ : Creditor)
      simp only [flush_loop, add_log_entry, generate_log_entry_id, ht,
        if_false, ite_false, Bool.false_eq_true, List.filter_cons,
        List.length_cons, List.map_cons, List.map_append,
        List.length_append, List.cons_append, List.nil_append]
      refine ⟨?_, ?_, ?_, ?_⟩
      · rw [ih1]
        omega
      · exact List.Chain.cons (by omega) ih2
      · have ih3' : (flush_loop
            (⟨c.creditor_id, c.last_log_entry_id + 1,
          c.creditor_latest_update_id, c.creditor_latest_update_ts,
          c.transfer_list_latest_update_id,
          c.transfer_list_latest_update_ts⟩ : Creditor) rest).1.last_log_entry_id
            = c.last_log_entry_id + 1
              + ((flush_loop
                (⟨c.creditor_id, c.last_log_entry_id + 1,
          c.creditor_latest_update_id, c.creditor_latest_update_ts,
          c.transfer_list_latest_update_id,
          c.transfer_list_latest_update_ts⟩ : Creditor) rest).2.1.length : Int) := ih3
        rw [ih3']
        push_cast
        omega
      · rw [ih4]

/-- Concrete creditor for the C7 demonstration. -/
def c7c : Creditor := ⟨1, 5, 1, 0, 1, 0⟩

/-- Two pending entries, the second a transfer-deletion entry. -/
def c7table : List PendingLogEntryRow :=
  [⟨1, "AccountLedger", "/creditors/1/accounts/2/ledger", some 2, 3,
      false, false, none⟩,
    ⟨2, TYPE_TRANSFER, "/creditors/1/transfers/u", none, 4, true, false,
      none⟩]

/-- C7: a log flush converts each pending entry, in pending-entry-id
order, into a durable LogEntry with the next entry_id from the creditor's
counter (entry_ids strictly increasing along that order), appends one
additional transfer-list log entry immediately after each pending entry
recording a transfer's creation or deletion, and deletes every processed
pending entry; in particular two pending entries of which one is a
transfer-deletion entry yield exactly three durable LogEntry rows. -/
theorem claim_C7 :
    (∀ (c : Creditor) (table : List PendingLogEntryRow),
      process_pending_log_entries (some c) table
        = some (flush_loop c (sort_by_pending_entry_id table))
      ∧ (flush_loop c (sort_by_pending_entry_id table)).2.1.length
        = (sort_by_pending_entry_id table).length
          + ((sort_by_pending_entry_id table).filter
              is_transfer_creation_or_deletion).length
      ∧ List.Chain (fun a b => a < b) c.last_log_entry_id
          ((flush_loop c (sort_by_pending_entry_id table)).2.1.map
            (fun l => l.entry_id))
      ∧ (flush_loop c (sort_by_pending_entry_id table)).2.2
        = (sort_by_pending_entry_id table).map
            (fun e => e.pending_entry_id))
    ∧ (∀ (c : Creditor) (e : PendingLogEntryRow)
        (rest : List PendingLogEntryRow),
        is_transfer_creation_or_deletion e = true →
        ∃ l1 l2 tail, (flush_loop c (e :: rest)).2.1
            = l1 :: l2 :: tail
          ∧ l1.object_type = e.object_type
          ∧ l2.object_type = TYPE_TRANSFER_LIST)
    ∧ (process_pending_log_entries (some c7c) c7table).map
        (fun r => r.2.1.length) = some 3 := by
  refine ⟨?_, ?_, ?_⟩
  · intro c table
    obtain ⟨h1, h2, h3, h4⟩ :=
      flush_loop_spec (sort_by_pending_entry_id table) c
    exact ⟨rfl, h1, h2, h4⟩
  · intro c e rest ht
    simp only [flush_loop, add_log_entry, generate_log_entry_id, ht,
      if_true, ite_true, List.cons_append, List.nil_append]
    exact ⟨_, _, _, rfl, rfl, rfl⟩
  · decide

/-- Witness for C7 at the two-entry table with one transfer-deletion
entry. -/
theorem claim_C7_witness :
    ((flush_loop c7c (sort_by_pending_entry_id c7table)).2.1.length
      = (sort_by_pending_entry_id c7table).length
        + ((sort_by_pending_entry_id c7table).filter
            is_transfer_creation_or_deletion).length)
    ∧ (is_transfer_creation_or_deletion
        (⟨2, TYPE_TRANSFER, "/creditors/1/transfers/u", none, 4, true,
          false, none⟩ : PendingLogEntryRow) = true
      ∧ ∃ l1 l2 tail,
        (flush_loop c7c
          [⟨2, TYPE_TRANSFER, "/creditors/1/transfers/u", none, 4, true,
            false, none⟩]).2.1 = l1 :: l2 :: tail
        ∧ l1.object_type = TYPE_TRANSFER
        ∧ l2.object_type = TYPE_TRANSFER_LIST) :=
  ⟨(claim_C7.1 c7c c7table).2.1,
    by decide,
    claim_C7.2.1 c7c
      ⟨2, TYPE_TRANSFER, "/creditors/1/transfers/u", none, 4, true,
        false, none⟩ [] (by decide)⟩

/-- Errors surfaced by update_creditor. -/
inductive UpdateCreditorError where
  | creditorDoesNotExist
  | updateConflict
deriving DecidableEq

/-- src/swpt_creditors/procedures/creditors.py:41-67.  The embedded
allow_update check is modelled from the spec: allow_update lives in
procedures/common.py which is not under src/; per §4.1, a request whose
supplied id equals the stored id (and, update_creditor supplying no other
fields, is therefore a no-op repeat) is AlreadyUpToDate and returns the
existing creditor unchanged; any supplied id other than stored + 1 is a
conflict; otherwise the stored id becomes the supplied id.  On success a
log entry for the creditor resource is appended. -/
def update_creditor (c? : Option Creditor)
    (latest_update_id current_ts : Int) :
    Except UpdateCreditorError (Creditor × List LogEntry) :=
  match c? with
  | none => .error .creditorDoesNotExist
  | some c =>
    if latest_update_id = c.creditor_latest_update_id then .ok (c, [])
    else if latest_update_id ≠ c.creditor_latest_update_id + 1 then
      .error .updateConflict
    else
      let c1 := { c with
        creditor_latest_update_ts := current_ts,
        creditor_latest_update_id := latest_update_id }
      let a := add_log_entry c1 TYPE_CREDITOR
        (creditor_path c1.creditor_id) (some c1.creditor_latest_update_id)
        current_ts false none
      .ok (a.1, [a.2])

/-- C8: a no-op repeat (supplied id equals the stored latest_update_id)
returns the existing creditor unchanged as a success; any other mismatch
with stored + 1 is a conflict; only a supplied id of exactly stored + 1
increments the stored id and appends one log entry. -/
theorem claim_C8 :
    (∀ (c : Creditor) (uid ts : Int),
      uid = c.creditor_latest_update_id →
      update_creditor (some c) uid ts = .ok (c, []))
    ∧ (∀ (c : Creditor) (uid ts : Int),
      uid ≠ c.creditor_latest_update_id →
      uid ≠ c.creditor_latest_update_id + 1 →
      update_creditor (some c) uid ts = .error .updateConflict)
    ∧ (∀ (c : Creditor) (uid ts : Int),
      uid = c.creditor_latest_update_id + 1 →
      ∃ c' l, update_creditor (some c) uid ts = .ok (c', [l])
        ∧ c'.creditor_latest_update_id = uid
        ∧ c'.creditor_latest_update_ts = ts
        ∧ l.entry_id = c.last_log_entry_id + 1
        ∧ c'.last_log_entry_id = c.last_log_entry_id + 1) := by
  refine ⟨?_, ?_, ?_⟩
  · intro c uid ts h
    rw [update_creditor, if_pos h]
  · intro c uid ts h1 h2
    rw [update_creditor, if_neg h1, if_pos h2]
  · intro c uid ts h
    have h1 : uid ≠ c.creditor_latest_update_id := by omega
    rw [update_creditor, if_neg h1, if_neg (by simpa using h)]
    exact ⟨_, _, rfl, rfl, rfl, rfl, rfl⟩

/-- Witness for C8 exercising the no-op repeat, the conflict and the
successful increment at concrete inputs. -/
theorem claim_C8_witness :
    ((1 : Int) = c7c.creditor_latest_update_id
      ∧ update_creditor (some c7c) 1 9 = .ok (c7c, []))
    ∧ ((5 : Int) ≠ c7c.creditor_latest_update_id
      ∧ (5 : Int) ≠ c7c.creditor_latest_update_id + 1
      ∧ update_creditor (some c7c) 5 9 = .error .updateConflict)
    ∧ ((2 : Int) = c7c.creditor_latest_update_id + 1
      ∧ ∃ c' l, update_creditor (some c7c) 2 9 = .ok (c', [l])
        ∧ c'.creditor_latest_update_id = 2
        ∧ c'.creditor_latest_update_ts = 9
        ∧ l.entry_id = c7c.last_log_entry_id + 1
        ∧ c'.last_log_entry_id = c7c.last_log_entry_id + 1) :=
  ⟨⟨by decide, claim_C8.1 c7c 1 9 (by decide)⟩,
    ⟨by decide, by decide, claim_C8.2.1 c7c 5 9 (by decide) (by decide)⟩,
    ⟨by decide, claim_C8.2.2 c7c 2 9 (by decide)⟩⟩

/-- src/swpt_creditors/models/transfers.py:7. -/
def SC_OK : String := "OK"

/-- src/swpt_creditors/models/transfers.py:8. -/
def SC_UNEXPECTED_ERROR : String := "UNEXPECTED_ERROR"

/-- src/swpt_creditors/models/transfers.py:10. -/
def SC_CANCELED_BY_THE_SENDER : String := "CANCELED_BY_THE_SENDER"

/-- RunningTransfer row (src/swpt_creditors/models/transfers.py:64-127).
transfer_id is set once the peer acknowledges preparation (is_settled);
finalized_at and error_code are set once terminal (is_finalized). -/
structure RunningTransfer where
  creditor_id : Int
  transfer_uuid : String
  debtor_id : Int
  amount : Int
  recipient_uri : String
  recipient : String
  transfer_note_format : String
  transfer_note : String
  initiated_at : Int
  finalized_at : Option Int
  error_code : Option String
  total_locked_amount : Option Int
  deadline : Option Int
  final_interest_rate_ts : Int
  locked_amount : Int
  coordinator_request_id : Int
  transfer_id : Option Int
  latest_update_id : Int
  latest_update_ts : Int
deriving DecidableEq

/-- Outbound FinalizeTransfer signal fields. -/
structure FinalizeTransferSignal where
  creditor_id : Int
  debtor_id : Int
  transfer_id : Int
  coordinator_id : Int
  coordinator_request_id : Int
  committed_amount : Int
  transfer_note_format : String
  transfer_note : String
deriving DecidableEq

/-- Pending log entry announcing a transfer change; per §4.3 it carries
only finalized_at and error_code. -/
structure TransferLogEntry where
  object_update_id : Int
  finalized_at : Option Int
  error_code : Option String
deriving DecidableEq

/-- Modelled from the spec: _finalize_running_transfer lives in
procedures/transfers.py which is not under src/; §4.3: "All finalization
paths bump latest_update_id and enqueue a transfer-change log entry
carrying only finalized_at and error_code". -/
def finalize_running_transfer (rt : RunningTransfer)
    (error_code : Option String) (total_locked_amount : Option Int)
    (current_ts : Int) : RunningTransfer × TransferLogEntry :=
  let rt2 := { rt with
    finalized_at := some current_ts,
    error_code := error_code,
    total_locked_amount := total_locked_amount,
    latest_update_id := rt.latest_update_id + 1,
    latest_update_ts := current_ts }
  (rt2,
    { object_update_id := rt2.latest_update_id,
      finalized_at := rt2.finalized_at, error_code := error_code })

/-- Modelled from the spec: process_prepared_direct_transfer_signal lives
in procedures/transfers.py which is not under src/; §4.3 "On prepared
reply": if it matches a still-unprepared RunningTransfer (the row found
by (coordinator_id, coordinator_request_id), here passed as the lookup
result), record transfer_id, bump latest_update_id, then immediately emit
an outbound finalize request with the full requested amount; otherwise
(no open transfer matches: duplicate/stale) emit a compensating finalize
with zero committed amount and take no local action. -/
def process_prepared_direct_transfer_signal (rt? : Option RunningTransfer)
    (debtor_id transfer_id coordinator_id coordinator_request_id
      locked_amount : Int) (recipient : String) (current_ts : Int) :
    Option RunningTransfer × List FinalizeTransferSignal :=
  match rt? with
  | some rt =>
    if rt.finalized_at = none ∧ rt.transfer_id = none then
      let rt2 := { rt with
        transfer_id := some transfer_id,
        latest_update_id := rt.latest_update_id + 1,
        latest_update_ts := current_ts }
      let sig : FinalizeTransferSignal :=
        { creditor_id := coordinator_id, debtor_id := debtor_id,
          transfer_id := transfer_id, coordinator_id := coordinator_id,
          coordinator_request_id := coordinator_request_id,
          committed_amount := rt.amount,
          transfer_note_format := rt.transfer_note_format,
          transfer_note := rt.transfer_note }
      (some rt2, [sig])
    else
      let sig : FinalizeTransferSignal :=
        { creditor_id := coordinator_id, debtor_id := debtor_id,
          transfer_id := transfer_id, coordinator_id := coordinator_id,
          coordinator_request_id := coordinator_request_id,
          committed_amount := 0, transfer_note_format := "",
          transfer_note := "" }
      (some rt, [sig])
  | none =>
    let sig : FinalizeTransferSignal :=
      { creditor_id := coordinator_id, debtor_id := debtor_id,
        transfer_id := transfer_id, coordinator_id := coordinator_id,
        coordinator_request_id := coordinator_request_id,
        committed_amount := 0, transfer_note_format := "",
        transfer_note := "" }
    (none, [sig])

/-- Modelled from the spec: process_finalized_direct_transfer_signal
lives in procedures/transfers.py which is not under src/; §4.3 "On
finalized reply" and §7 "Protocol inconsistency": for an un-finalized
transfer whose transfer_id matches, a success status with the full
requested amount finalizes as success; a business rejection (non-success
status, zero committed amount) finalizes with the reply's own status code
and records the reported total-locked amount; any other combination is
internally inconsistent and finalizes as SC_UNEXPECTED_ERROR.  Other
replies are ignored.  The function is total: peer-supplied garbage never
raises. -/
def process_finalized_direct_transfer_signal (rt? : Option RunningTransfer)
    (debtor_id transfer_id coordinator_id coordinator_request_id
      committed_amount : Int) (status_code : String)
    (total_locked_amount : Int) (current_ts : Int) :
    Option RunningTransfer × List TransferLogEntry :=
  match rt? with
  | some rt =>
    if rt.finalized_at = none ∧ rt.transfer_id = some transfer_id then
      if status_code = SC_OK ∧ committed_amount = rt.amount then
        let f := finalize_running_transfer rt none none current_ts
        (some f.1, [f.2])
      else if status_code ≠ SC_OK ∧ committed_amount = 0 then
        let f := finalize_running_transfer rt (some status_code)
          (some total_locked_amount) current_ts
        (some f.1, [f.2])
      else
        let f := finalize_running_transfer rt (some SC_UNEXPECTED_ERROR)
          none current_ts
        (some f.1, [f.2])
    else (some rt, [])
  | none => (none, [])

/-- Errors surfaced by cancel_running_transfer.  An error return models
the aborted transaction: no row is changed. -/
inductive CancelRunningTransferError where
  | transferDoesNotExist
  | forbiddenTransferCancellation
deriving DecidableEq

/-- Modelled from the spec: cancel_running_transfer lives in
procedures/transfers.py which is not under src/; §4.3: cancellation is
only possible strictly before prepared (before transfer_id is set);
attempting to cancel afterward fails (surfaced by the in-src route
src/swpt_creditors/routes/transfers.py:199-215 as a 403); it is
implemented as the same finalization a peer-side rejection would have
produced, and is idempotent, so an already finalized transfer is returned
unchanged. -/
def cancel_running_transfer (rt? : Option RunningTransfer)
    (current_ts : Int) :
    Except CancelRunningTransferError
      (RunningTransfer × List TransferLogEntry) :=
  match rt? with
  | none => .error .transferDoesNotExist
  | some rt =>
    if rt.finalized_at ≠ none then .ok (rt, [])
    else if rt.transfer_id ≠ none then
      .error .forbiddenTransferCancellation
    else
      let f := finalize_running_transfer rt
        (some SC_CANCELED_BY_THE_SENDER) none current_ts
      .ok (f.1, [f.2])

/-- C4: a TransferFinalized reply matching an un-finalized RunningTransfer
whose transfer_id is set, carrying an internally-inconsistent committed
amount (success status with a committed_amount unequal to the requested
amount, or a non-zero committed_amount unequal to the requested amount),
finalizes the transfer with SC_UNEXPECTED_ERROR rather than the reply's
own status code; the processing function is total, so no exception
reaches the signal-processing pipeline. -/
theorem claim_C4 (rt : RunningTransfer)
    (debtor_id transfer_id coordinator_id coordinator_request_id
      committed_amount total_locked_amount current_ts : Int)
    (status_code : String)
    (hset : rt.transfer_id = some transfer_id)
    (hunfin : rt.finalized_at = none)
    (hincons : (status_code = SC_OK ∧ committed_amount ≠ rt.amount)
      ∨ (committed_amount ≠ 0 ∧ committed_amount ≠ rt.amount)) :
    ∃ rt2 log,
      process_finalized_direct_transfer_signal (some rt) debtor_id
        transfer_id coordinator_id coordinator_request_id
        committed_amount status_code total_locked_amount current_ts
        = (some rt2, [log])
      ∧ rt2.error_code = some SC_UNEXPECTED_ERROR
      ∧ rt2.finalized_at = some current_ts
      ∧ rt2.total_locked_amount = none
      ∧ log.error_code = some SC_UNEXPECTED_ERROR := by
  have hb1 : ¬(status_code = SC_OK ∧ committed_amount = rt.amount) := by
    tauto
  have hb2 : ¬(status_code ≠ SC_OK ∧ committed_amount = 0) := by
    tauto
  simp only [process_finalized_direct_transfer_signal]
  rw [if_pos ⟨hunfin, hset⟩, if_neg hb1, if_neg hb2]
  exact ⟨_, _, rfl, rfl, rfl, rfl, rfl⟩

/-- A prepared, un-finalized running transfer of 1000 units. -/
def rt4 : RunningTransfer :=
  ⟨1, "7eb58294", 2, 1000, "swpt:2/666", "666", "json", "\x7b\x7d", 0,
    none, none, none, none, 0, 0, 77, some 123, 2, 0⟩

/-- Witness for C4: TransferFinalized(committed_amount = 999,
status = TEST_ERROR) against rt4 (amount 1000). -/
theorem claim_C4_witness :
    (rt4.transfer_id = some 123 ∧ rt4.finalized_at = none
      ∧ (("TEST_ERROR" = SC_OK ∧ (999 : Int) ≠ rt4.amount)
        ∨ ((999 : Int) ≠ 0 ∧ (999 : Int) ≠ rt4.amount)))
    ∧ ∃ rt2 log,
      process_finalized_direct_transfer_signal (some rt4) 2 123 1 77 999
        "TEST_ERROR" 100 50 = (some rt2, [log])
      ∧ rt2.error_code = some SC_UNEXPECTED_ERROR
      ∧ rt2.finalized_at = some 50
      ∧ rt2.total_locked_amount = none
      ∧ log.error_code = some SC_UNEXPECTED_ERROR :=
  ⟨⟨by decide, by decide, by decide⟩,
    claim_C4 rt4 2 123 1 77 999 100 50 "TEST_ERROR" (by decide)
      (by decide) (by decide)⟩

/-- C5: a TransferPrepared reply matching a still-unprepared
RunningTransfer records transfer_id and emits an outbound finalize with
the full requested amount; a reply matching no open transfer emits a
finalize with committed_amount = 0 and changes no local row. -/
theorem claim_C5 :
    (∀ (rt : RunningTransfer)
      (debtor_id transfer_id coordinator_id coordinator_request_id
        locked_amount current_ts : Int) (recipient : String),
      rt.transfer_id = none → rt.finalized_at = none →
      ∃ rt2 sig,
        process_prepared_direct_transfer_signal (some rt) debtor_id
          transfer_id coordinator_id coordinator_request_id locked_amount
          recipient current_ts = (some rt2, [sig])
        ∧ rt2.transfer_id = some transfer_id
        ∧ rt2.latest_update_id = rt.latest_update_id + 1
        ∧ sig.committed_amount = rt.amount
        ∧ sig.transfer_id = transfer_id
        ∧ sig.coordinator_request_id = coordinator_request_id)
    ∧ (∀ (debtor_id transfer_id coordinator_id coordinator_request_id
        locked_amount current_ts : Int) (recipient : String),
      ∃ sig,
        process_prepared_direct_transfer_signal none debtor_id
          transfer_id coordinator_id coordinator_request_id locked_amount
          recipient current_ts = (none, [sig])
        ∧ sig.committed_amount = 0
        ∧ sig.coordinator_request_id = coordinator_request_id) := by
  constructor
  · intro rt debtor_id transfer_id coordinator_id coordinator_request_id
      locked_amount current_ts recipient hunprep hunfin
    simp only [process_prepared_direct_transfer_signal]
    rw [if_pos ⟨hunfin, hunprep⟩]
    exact ⟨_, _, rfl, rfl, rfl, rfl, rfl, rfl⟩
  · intro debtor_id transfer_id coordinator_id coordinator_request_id
      locked_amount current_ts recipient
    exact ⟨_, rfl, rfl, rfl⟩

/-- An initiated, not yet prepared running transfer. -/
def rt5 : RunningTransfer :=
  ⟨1, "7eb58294", 2, 1000, "swpt:2/666", "666", "json", "\x7b\x7d", 0,
    none, none, none, none, 0, 0, 77, none, 1, 0⟩

/-- Witness for C5: the matching and the unmatched prepared reply. -/
theorem claim_C5_witness :
    (rt5.transfer_id = none ∧ rt5.finalized_at = none
      ∧ ∃ rt2 sig,
        process_prepared_direct_transfer_signal (some rt5) 2 123 1 77 0
          "666" 50 = (some rt2, [sig])
        ∧ rt2.transfer_id = some 123
        ∧ rt2.latest_update_id = rt5.latest_update_id + 1
        ∧ sig.committed_amount = rt5.amount
        ∧ sig.transfer_id = 123
        ∧ sig.coordinator_request_id = 77)
    ∧ (∃ sig,
        process_prepared_direct_transfer_signal none 2 123 1 78 0 "666"
          50 = (none, [sig])
        ∧ sig.committed_amount = 0
        ∧ sig.coordinator_request_id = 78) :=
  ⟨⟨by decide, by decide,
    claim_C5.1 rt5 2 123 1 77 0 50 "666" (by decide) (by decide)⟩,
    claim_C5.2 2 123 1 78 0 50 "666"⟩

/-- C6: once transfer_id is set and the transfer is not yet finalized,
cancel_running_transfer fails with the forbidden-cancellation error (the
aborted transaction leaves the row unchanged); a cancellation is actually
performed only when transfer_id is still unset. -/
theorem claim_C6 :
    (∀ (rt : RunningTransfer) (tid current_ts : Int),
      rt.transfer_id = some tid → rt.finalized_at = none →
      cancel_running_transfer (some rt) current_ts
        = .error .forbiddenTransferCancellation)
    ∧ (∀ (rt r : RunningTransfer) (current_ts : Int)
        (logs : List TransferLogEntry),
      cancel_running_transfer (some rt) current_ts = .ok (r, logs) →
      rt.finalized_at = none →
      rt.transfer_id = none) := by
  constructor
  · intro rt tid current_ts hset hunfin
    simp only [cancel_running_transfer]
    rw [if_neg (by simp [hunfin]), if_pos (by simp [hset])]
  · intro rt r current_ts logs hok hunfin
    by_contra hset
    simp only [cancel_running_transfer] at hok
    rw [if_neg (by simp [hunfin]), if_pos hset] at hok
    cases hok

/-- Witness for C6: cancelling the prepared rt4 is forbidden; cancelling
the unprepared rt5 succeeds and implies transfer_id was unset. -/
theorem claim_C6_witness :
    (rt4.transfer_id = some 123 ∧ rt4.finalized_at = none
      ∧ cancel_running_transfer (some rt4) 50
        = .error .forbiddenTransferCancellation)
    ∧ (cancel_running_transfer (some rt5) 50
        = .ok ((finalize_running_transfer rt5
            (some SC_CANCELED_BY_THE_SENDER) none 50).1,
          [(finalize_running_transfer rt5
            (some SC_CANCELED_BY_THE_SENDER) none 50).2])
      ∧ rt5.finalized_at = none ∧ rt5.transfer_id = none) :=
  ⟨⟨by decide, by decide, claim_C6.1 rt4 123 50 (by decide) (by decide)⟩,
    by refine ⟨rfl, rfl, ?_⟩
       exact claim_C6.2 rt5 _ 50 _ rfl rfl⟩

end SwptCreditors
